import Mathlib

/-!
Verification development for the bouncer arcade simulation (src/src/main.cpp).
Machine floats of the source are modelled as exact rationals; the square-root
routine is passed in as an explicit function parameter where the source calls
std::sqrt, and witnesses instantiate it with an exact rational square root.
-/

namespace Bouncer

/-- World and player constants from the top of main.cpp. -/
def SCREEN_WIDTH : ℤ := 1280
def SCREEN_HEIGHT : ℤ := 720
def WORLD_WIDTH : ℚ := 1280 * 8
def WORLD_HEIGHT : ℚ := 720 * 2
def GROUND_HEIGHT : ℚ := 64
def PLAYER_SIZE : ℚ := 64
def GRAVITY : ℚ := 1/2

def BALL_GRAVITY : ℚ := 1/2
def BALL_RESTITUTION : ℚ := 72/100
def BALL_FRICTION_GROUND : ℚ := 92/100
def BALL_AIR_DRAG : ℚ := 995/1000

def BALL_PADDLE_MIN_UP : ℚ := 13/2
def BALL_DRIBBLE_SPEED : ℚ := 7
def BALL_NEAR_BOUNCE_GAP : ℚ := 10

def BALL_MAX_VX : ℚ := 14
def BALL_MAX_VY : ℚ := 26

def BASKETBALL_MAX_ENERGY : ℤ := 12
def BASKETBALL_BASE_UP : ℚ := 6
def BASKETBALL_UP_PER_ENERGY : ℚ := 115/100

def SHOT_VY_BASE : ℚ := 14
def SHOT_VY_PER_ENERGY : ℚ := 6/10
def SHOT_VX_HALF_SCREEN_AT : ℚ := 6
def SHOT_VX_FULL_SCREEN_AT : ℚ := 11
def SHOT_VX_MAX : ℚ := 18

def DOWNWARD_FORCE : ℚ := 3
def BOUNCE_LEVEL0 : ℚ := -3
def BOUNCE_LEVEL1 : ℚ := -10
def BOUNCE_LEVEL2 : ℚ := -14
def BOUNCE_LEVEL3 : ℚ := -18
def BOUNCE_LEVEL4 : ℚ := -22
def BOUNCE_LEVEL5 : ℚ := -26

/-- SDL_Rect: integer axis-aligned rectangle. -/
structure Rect where
  x : ℤ
  y : ℤ
  w : ℤ
  h : ℤ
deriving DecidableEq

/-- Platform record: rectangle plus solidity flag. -/
structure Platform where
  rect : Rect
  isSolid : Bool
deriving DecidableEq

/-- Basket target region. -/
structure Basket where
  rect : Rect
deriving DecidableEq

/-- The two ball kinds. -/
inductive BallKind where
  | soccer
  | basketball
deriving DecidableEq

/-- Ball state (struct Ball in main.cpp). -/
structure Ball where
  kind : BallKind
  x : ℚ
  y : ℚ
  vx : ℚ
  vy : ℚ
  radius : ℚ
  active : Bool
  energy : ℤ
  shooting : Bool
deriving DecidableEq

/-- Player state: the frame-local player variables of main. -/
structure PlayerState where
  playerX : ℚ
  playerY : ℚ
  velocityY : ℚ
  isGrounded : Bool
  wasInAir : Bool
  bounceLevel : ℤ
  spacePressed : Bool
  spacePressedThisFall : Bool
  hadSmallRebound : Bool
  faceOffset : ℤ
  lastFacing : ℤ
  lastPlayerX : ℚ
deriving DecidableEq

/-- The clampf helper of main.cpp: max lo (min v hi). -/
def clampf (v lo hi : ℚ) : ℚ := max lo (min v hi)

/-- C style truncation toward zero, used where the source casts float to int:
truncating division of the numerator by the (positive) denominator. -/
def truncQ (q : ℚ) : ℤ := Int.tdiv q.num (q.den : ℤ)

/-- Squared distance from a point to a rectangle (component-wise clamp of the
point into the rectangle span, then squared distance to that closest point). -/
def distSqToRect (x y : ℚ) (r : Rect) : ℚ :=
  let closestX := clampf x (r.x : ℚ) ((r.x + r.w : ℤ) : ℚ)
  let closestY := clampf y (r.y : ℚ) ((r.y + r.h : ℤ) : ℚ)
  (x - closestX) * (x - closestX) + (y - closestY) * (y - closestY)

/-- An exact rational square-root approximation used to instantiate the
square-root parameter in witnesses: exact whenever numerator and denominator
are perfect squares. -/
def ratSqrt (q : ℚ) : ℚ := (Nat.sqrt q.num.toNat : ℚ) / (Nat.sqrt q.den : ℚ)

/-- The resolveCircleRect primitive of main.cpp. Returns the updated ball and
whether a collision was reported. The square-root routine is a parameter. -/
def resolveCircleRect (sqrtQ : ℚ → ℚ) (c : Ball) (r : Rect) (restitution : ℚ) :
    Ball × Bool :=
  let closestX := clampf c.x (r.x : ℚ) ((r.x + r.w : ℤ) : ℚ)
  let closestY := clampf c.y (r.y : ℚ) ((r.y + r.h : ℤ) : ℚ)
  let dx := c.x - closestX
  let dy := c.y - closestY
  let dist2 := dx * dx + dy * dy
  let rad2 := c.radius * c.radius
  if rad2 ≤ dist2 then (c, false)
  else
    let p : ℚ × ℚ × ℚ :=
      if dist2 = 0 then
        let left := |c.x - (r.x : ℚ)|
        let right := |((r.x + r.w : ℤ) : ℚ) - c.x|
        let top := |c.y - (r.y : ℚ)|
        let bottom := |((r.y + r.h : ℤ) : ℚ) - c.y|
        let m := min (min left right) (min top bottom)
        if m = left then (-1, 0, 1)
        else if m = right then (1, 0, 1)
        else if m = top then (0, -1, 1)
        else (0, 1, 1)
      else (dx, dy, dist2)
    let dist := sqrtQ p.2.2
    let nx := p.1 / dist
    let ny := p.2.1 / dist
    let penetration := c.radius - dist
    let c1 := { c with x := c.x + nx * penetration, y := c.y + ny * penetration }
    let vn := c1.vx * nx + c1.vy * ny
    let c2 :=
      if vn < 0 then
        { c1 with vx := c1.vx - (1 + restitution) * vn * nx,
                  vy := c1.vy - (1 + restitution) * vn * ny }
      else c1
    (c2, true)

/-- The per-level timing-window threshold ladder (shared by the SDLK_SPACE
press path and the held-space path). -/
def distanceThreshold (level : ℤ) : ℚ :=
  if level = 0 then 80
  else if level = 1 then 70
  else if level = 2 then 60
  else if level = 3 then 50
  else if level = 4 then 40
  else 30

/-- Vertical distance from the player bottom edge to the ground plane. -/
def groundDistance (s : PlayerState) : ℚ :=
  (WORLD_HEIGHT - GROUND_HEIGHT) - (s.playerY + PLAYER_SIZE)

/-- The qualification test of the timing-window platform scan: the platform is
collidable (solid, or any platform while the bounce level is positive),
horizontally overlaps the player, and its top is strictly below the player
bottom edge. -/
def timingQualifies (s : PlayerState) (p : Platform) : Prop :=
  (p.isSolid = true ∨ 0 < s.bounceLevel) ∧
  (p.rect.x : ℚ) < s.playerX + PLAYER_SIZE ∧
  s.playerX < ((p.rect.x + p.rect.w : ℤ) : ℚ) ∧
  s.playerY + PLAYER_SIZE < (p.rect.y : ℚ)

instance (s : PlayerState) (p : Platform) : Decidable (timingQualifies s p) := by
  unfold timingQualifies
  infer_instance

/-- The accumulator loop of the timing-window check: walks the platform list
keeping the smallest distance found, exactly as the source for-loop does. -/
def minSurfaceLoop (s : PlayerState) (acc : ℚ) : List Platform → ℚ
  | [] => acc
  | p :: ps =>
      let acc1 :=
        if timingQualifies s p then
          let d := (p.rect.y : ℚ) - (s.playerY + PLAYER_SIZE)
          if 0 ≤ d ∧ d < acc then d else acc
        else acc
      minSurfaceLoop s acc1 ps

/-- The minDistance computed by the timing-window check: distance to ground,
then lowered by each qualifying platform that is closer. -/
def minSurfaceDistance (s : PlayerState) (ps : List Platform) : ℚ :=
  minSurfaceLoop s (groundDistance s) ps

/-- Distances to the qualifying platforms, in list order. -/
def platformDistances (s : PlayerState) (ps : List Platform) : List ℚ :=
  ps.filterMap fun p =>
    if timingQualifies s p then some ((p.rect.y : ℚ) - (s.playerY + PLAYER_SIZE))
    else none

/-- Declarative form of the minimum surface distance: the minimum of the
ground distance and the distances of all qualifying platforms. -/
def minSurfaceDistSpec (s : PlayerState) (ps : List Platform) : ℚ :=
  (platformDistances s ps).foldr min (groundDistance s)

/-- Body of the timing-window check: accept the input when the minimum
distance is positive and within the level threshold; on acceptance set the
boost flag and add the downward-force increment to the vertical velocity. -/
def timingCheck (ps : List Platform) (s : PlayerState) : PlayerState :=
  let minDistance := minSurfaceDistance s ps
  if minDistance ≤ distanceThreshold s.bounceLevel ∧ 0 < minDistance then
    { s with spacePressedThisFall := true,
             velocityY := s.velocityY + DOWNWARD_FORCE }
  else s

/-- The per-tick held-space re-check (the guard at the top of the frame loop
after input handling). -/
def heldSpaceCheck (ps : List Platform) (s : PlayerState) : PlayerState :=
  if s.isGrounded = false ∧ s.spacePressed = true ∧
     s.spacePressedThisFall = false ∧ 0 < s.velocityY then
    timingCheck ps s
  else s

/-- The SDLK_SPACE keydown handler: initial jump when grounded at level 0,
otherwise the falling timing-window check. -/
def spaceKeydown (ps : List Platform) (s : PlayerState) : PlayerState :=
  let s0 := { s with spacePressed := true }
  if s0.isGrounded = true ∧ s0.bounceLevel = 0 then
    { s0 with velocityY := BOUNCE_LEVEL1, bounceLevel := 1, isGrounded := false }
  else if s0.isGrounded = false ∧ s0.spacePressedThisFall = false ∧
          0 < s0.velocityY then
    timingCheck ps s0
  else s0

/-- The per-level bounce impulse table stated by the design document. -/
def bounceImpulse (level : ℤ) : ℚ :=
  if level = 1 then BOUNCE_LEVEL1
  else if level = 2 then BOUNCE_LEVEL2
  else if level = 3 then BOUNCE_LEVEL3
  else if level = 4 then BOUNCE_LEVEL4
  else if level = 5 then BOUNCE_LEVEL5
  else 0

/-- Shared tail of both landing branches: clear the boost flag, then set the
grounded and was-in-air flags from the bouncedThisFrame outcome. -/
def landFinish (t : PlayerState × Bool) : PlayerState × Bool :=
  let s2 := { t.1 with spacePressedThisFall := false }
  if t.2 = true then ({ s2 with isGrounded := false, wasInAir := true }, true)
  else ({ s2 with isGrounded := true, wasInAir := false }, false)

/-- The boosted landing ladder shared by both surfaces: increment the level
capped at 5, then pick the impulse of the resulting level. The setSmall flag
distinguishes the ground branch, which also resets the small-rebound latch. -/
def boostedLadder (setSmall : Bool) (s : PlayerState) : PlayerState × Bool :=
  let lvl := min 5 (s.bounceLevel + 1)
  let s0 := if setSmall = true then
      { s with bounceLevel := lvl, hadSmallRebound := false }
    else { s with bounceLevel := lvl }
  if lvl = 1 then ({ s0 with velocityY := BOUNCE_LEVEL1 }, true)
  else if lvl = 2 then ({ s0 with velocityY := BOUNCE_LEVEL2 }, true)
  else if lvl = 3 then ({ s0 with velocityY := BOUNCE_LEVEL3 }, true)
  else if lvl = 4 then ({ s0 with velocityY := BOUNCE_LEVEL4 }, true)
  else if lvl = 5 then ({ s0 with velocityY := BOUNCE_LEVEL5 }, true)
  else (s0, false)

/-- The unboosted platform ladder: decrement the level with floor 0; at
resulting level 0 stop immediately with zero velocity (no small rebound). -/
def unboostedPlatformLadder (s : PlayerState) : PlayerState × Bool :=
  let lvl := max 0 (s.bounceLevel - 1)
  if lvl = 1 then ({ s with bounceLevel := lvl, velocityY := BOUNCE_LEVEL1, hadSmallRebound := false }, true)
  else if lvl = 2 then ({ s with bounceLevel := lvl, velocityY := BOUNCE_LEVEL2, hadSmallRebound := false }, true)
  else if lvl = 3 then ({ s with bounceLevel := lvl, velocityY := BOUNCE_LEVEL3, hadSmallRebound := false }, true)
  else if lvl = 4 then ({ s with bounceLevel := lvl, velocityY := BOUNCE_LEVEL4, hadSmallRebound := false }, true)
  else if lvl = 5 then ({ s with bounceLevel := lvl, velocityY := BOUNCE_LEVEL5, hadSmallRebound := false }, true)
  else ({ s with bounceLevel := lvl, velocityY := 0, hadSmallRebound := false }, false)

/-- The unboosted ground ladder: decrement the level with floor 0; at
resulting level 0 apply the two-stage small-rebound settle guarded by the
hadSmallRebound latch. -/
def unboostedGroundLadder (s : PlayerState) : PlayerState × Bool :=
  let lvl := max 0 (s.bounceLevel - 1)
  if lvl = 1 then ({ s with bounceLevel := lvl, velocityY := BOUNCE_LEVEL1, hadSmallRebound := false }, true)
  else if lvl = 2 then ({ s with bounceLevel := lvl, velocityY := BOUNCE_LEVEL2, hadSmallRebound := false }, true)
  else if lvl = 3 then ({ s with bounceLevel := lvl, velocityY := BOUNCE_LEVEL3, hadSmallRebound := false }, true)
  else if lvl = 4 then ({ s with bounceLevel := lvl, velocityY := BOUNCE_LEVEL4, hadSmallRebound := false }, true)
  else if lvl = 5 then ({ s with bounceLevel := lvl, velocityY := BOUNCE_LEVEL5, hadSmallRebound := false }, true)
  else if s.hadSmallRebound = false then
    ({ s with bounceLevel := lvl, velocityY := BOUNCE_LEVEL0, hadSmallRebound := true }, true)
  else
    ({ s with bounceLevel := lvl, velocityY := 0, hadSmallRebound := false }, false)

/-- Landing resolution executed when the player hits a platform from above
(the body of the platform collision loop after the vertical snap). Returns the
updated state and the bouncedThisFrame flag. -/
def platformLand (s : PlayerState) : PlayerState × Bool :=
  if s.wasInAir = true then
    landFinish (if s.spacePressedThisFall = true then boostedLadder false s
                else unboostedPlatformLadder s)
  else
    ({ s with velocityY := 0, isGrounded := true, wasInAir := false }, false)

/-- Landing resolution executed when the player reaches the ground plane.
Differs from the platform branch at resulting level 0: the ground applies the
two-stage small-rebound settle guarded by the hadSmallRebound latch. -/
def groundLand (s : PlayerState) : PlayerState × Bool :=
  if s.wasInAir = true then
    landFinish (if s.spacePressedThisFall = true then boostedLadder true s
                else unboostedGroundLadder s)
  else
    ({ s with velocityY := 0, isGrounded := true, wasInAir := false }, false)

/-- The landing test of the platform collision loop: collidable platform,
horizontal overlap, and the one-step swept test against the platform top. -/
def platformLandingPred (s : PlayerState) (p : Platform) : Prop :=
  (p.isSolid = true ∨ 0 < s.bounceLevel) ∧
  (p.rect.x : ℚ) < s.playerX + PLAYER_SIZE ∧
  s.playerX < ((p.rect.x + p.rect.w : ℤ) : ℚ) ∧
  s.playerY + PLAYER_SIZE ≤ (p.rect.y : ℚ) ∧
  (p.rect.y : ℚ) ≤ s.playerY + PLAYER_SIZE + s.velocityY

instance (s : PlayerState) (p : Platform) : Decidable (platformLandingPred s p) := by
  unfold platformLandingPred
  infer_instance

/-- The platform collision loop: the first platform passing the landing test
is taken; the player is snapped onto its top, landing resolution runs, and the
loop stops. Returns the state and the landedOnPlatform flag. -/
def platformLoop (s : PlayerState) : List Platform → PlayerState × Bool
  | [] => (s, false)
  | p :: ps =>
      if platformLandingPred s p then
        ((platformLand { s with playerY := (p.rect.y : ℚ) - PLAYER_SIZE }).1, true)
      else platformLoop s ps

/-- The guarded platform collision phase: runs only outside editor mode and
only while the vertical velocity indicates falling or resting. -/
def platformPhase (editorMode : Bool) (s : PlayerState) (ps : List Platform) :
    PlayerState × Bool :=
  if editorMode = false ∧ 0 ≤ s.velocityY then platformLoop s ps
  else (s, false)

/-- Read-only inputs consumed by the per-tick ball update: the finalized
player state of the tick, the bounce event, and the level geometry. -/
structure BallEnv where
  playerX : ℚ
  playerY : ℚ
  lastPlayerX : ℚ
  faceOffset : ℤ
  lastFacing : ℤ
  bounceLevel : ℤ
  bouncedThisFrame : Bool
  platforms : List Platform
  baskets : List Basket
deriving DecidableEq

/-- The player bounding rectangle as the source builds it, truncating the
float position to ints. -/
def playerRectOf (x y : ℚ) : Rect :=
  { x := truncQ x, y := truncQ y, w := 64, h := 64 }

/-- Gravity applied to the ball. -/
def gravityPhase (b : Ball) : Ball := { b with vy := b.vy + BALL_GRAVITY }

/-- Horizontal damping: the basketball, while not shooting, damps aggressively
with a larger dead zone; all other cases use the gentle air drag. -/
def dampPhase (b : Ball) : Ball :=
  if b.kind = BallKind.basketball ∧ b.shooting = false then
    let vx := b.vx * (90/100)
    { b with vx := if |vx| < 1/100 then 0 else vx }
  else
    let vx := b.vx * BALL_AIR_DRAG
    { b with vx := if |vx| < 1/1000 then 0 else vx }

/-- Velocity clamp to the fixed safety maxima (used both before integration
and again after all interactions). -/
def clampVel (b : Ball) : Ball :=
  { b with vx := clampf b.vx (-BALL_MAX_VX) BALL_MAX_VX,
           vy := clampf b.vy (-BALL_MAX_VY) BALL_MAX_VY }

/-- Position integration by velocity. -/
def integratePhase (b : Ball) : Ball := { b with x := b.x + b.vx, y := b.y + b.vy }

/-- World left, right and top bounds with restitution reflection. -/
def worldBoundsPhase (b : Ball) : Ball :=
  let b1 := if b.x - b.radius < 0 then
      { b with x := b.radius, vx := -b.vx * BALL_RESTITUTION } else b
  let b2 := if WORLD_WIDTH < b1.x + b1.radius then
      { b1 with x := WORLD_WIDTH - b1.radius, vx := -b1.vx * BALL_RESTITUTION } else b1
  if b2.y - b2.radius < 0 then
    { b2 with y := b2.radius, vy := -b2.vy * BALL_RESTITUTION }
  else b2

/-- Ground contact: restitution reflection, ground friction, snap of the near
zero vertical velocity, and exit from the shooting state. -/
def groundContactPhase (b : Ball) : Ball :=
  let ballGroundY := WORLD_HEIGHT - GROUND_HEIGHT - b.radius
  if ballGroundY < b.y then
    let b1 := { b with y := ballGroundY }
    let b2 := if 0 < b1.vy then { b1 with vy := -b1.vy * BALL_RESTITUTION } else b1
    let b3 := { b2 with vx := b2.vx * BALL_FRICTION_GROUND }
    let b4 := if |b3.vy| < 2/10 then { b3 with vy := 0 } else b3
    if b4.kind = BallKind.basketball then { b4 with shooting := false } else b4
  else b

/-- Ball-vs-platform resolution over every platform collidable this tick. -/
def platformsPhase (sqrtQ : ℚ → ℚ) (env : BallEnv) (b : Ball) : Ball :=
  env.platforms.foldl
    (fun bb p =>
      if p.isSolid = true ∨ 0 < env.bounceLevel then
        (resolveCircleRect sqrtQ bb p.rect BALL_RESTITUTION).1
      else bb)
    b

/-- Ball-vs-player resolution and the kind-specific interaction rules,
including the near-bounce proximity trigger. -/
def playerPhase (sqrtQ : ℚ → ℚ) (env : BallEnv) (b : Ball) : Ball :=
  let playerRect := playerRectOf env.playerX env.playerY
  let playerCenterX := env.playerX + PLAYER_SIZE * (1/2)
  let playerDX := env.playerX - env.lastPlayerX
  let facing : ℤ :=
    if env.faceOffset < 0 then -1
    else if 0 < env.faceOffset then 1
    else if playerDX < -(1/100) then -1
    else if 1/100 < playerDX then 1
    else env.lastFacing
  let hit := resolveCircleRect sqrtQ b playerRect (82/100)
  let b1 := hit.1
  if hit.2 = true then
    if b1.kind = BallKind.basketball ∧ b1.shooting = false then
      let b2 := if env.bouncedThisFrame = true then
          { b1 with energy := min BASKETBALL_MAX_ENERGY (b1.energy + 1) } else b1
      { b2 with vx := 0,
                vy := -(BASKETBALL_BASE_UP + (b2.energy : ℚ) * BASKETBALL_UP_PER_ENERGY) }
    else
      let offset := clampf ((b1.x - playerCenterX) / (PLAYER_SIZE * (1/2))) (-1) 1
      let up := max BALL_PADDLE_MIN_UP |b1.vy|
      let b2 := { b1 with vy := -up }
      if facing ≠ 0 ∧ 15/100 < offset * (facing : ℚ) then
        { b2 with vx := (facing : ℚ) * (BALL_DRIBBLE_SPEED * |offset|) + playerDX * (4/10) }
      else
        { b2 with vx := 0 }
  else
    let closestX := clampf b1.x (playerRect.x : ℚ) ((playerRect.x + playerRect.w : ℤ) : ℚ)
    let closestY := clampf b1.y (playerRect.y : ℚ) ((playerRect.y + playerRect.h : ℤ) : ℚ)
    let dx := b1.x - closestX
    let dy := b1.y - closestY
    let dist := sqrtQ (dx * dx + dy * dy)
    let gap := dist - b1.radius
    if env.bouncedThisFrame = true ∧ 0 < gap ∧ gap ≤ BALL_NEAR_BOUNCE_GAP then
      if b1.kind = BallKind.basketball then
        let b2 := { b1 with energy := min BASKETBALL_MAX_ENERGY (b1.energy + 1) }
        { b2 with vx := 0,
                  vy := -(BASKETBALL_BASE_UP + (b2.energy : ℚ) * BASKETBALL_UP_PER_ENERGY) }
      else
        { b1 with vx := 0, vy := -(max BALL_PADDLE_MIN_UP |b1.vy|) }
    else b1

/-- Inclusive containment of the ball center in a basket rectangle. -/
def basketContains (k : Basket) (b : Ball) : Prop :=
  (k.rect.x : ℚ) ≤ b.x ∧ b.x ≤ ((k.rect.x + k.rect.w : ℤ) : ℚ) ∧
  (k.rect.y : ℚ) ≤ b.y ∧ b.y ≤ ((k.rect.y + k.rect.h : ℤ) : ℚ)

instance (k : Basket) (b : Ball) : Decidable (basketContains k b) := by
  unfold basketContains
  infer_instance

/-- The basket scoring loop: the first basket containing the ball center
resets the ball to a fixed offset from the player with zero velocity, and the
loop stops. -/
def scoringLoop (px py : ℚ) (b : Ball) : List Basket → Ball
  | [] => b
  | k :: ks =>
      if basketContains k b then
        { b with x := px + PLAYER_SIZE + 20, y := py + PLAYER_SIZE - 40,
                 vx := 0, vy := 0 }
      else scoringLoop px py b ks

/-- One complete ball physics update for an active ball in game mode
(the body guarded by editorMode and ball.active in the frame loop). -/
def ballTick (sqrtQ : ℚ → ℚ) (env : BallEnv) (b : Ball) : Ball :=
  let b1 := gravityPhase b
  let b2 := dampPhase b1
  let b3 := clampVel b2
  let b4 := integratePhase b3
  let b5 := worldBoundsPhase b4
  let b6 := groundContactPhase b5
  let b7 := platformsPhase sqrtQ env b6
  let b8 := playerPhase sqrtQ env b7
  let b9 := clampVel b8
  scoringLoop env.playerX env.playerY b9 env.baskets

/-- The SDLK_TAB handler: toggle the ball kind, zero the energy and clear the
shooting flag. -/
def toggleBallKind (b : Ball) : Ball :=
  if b.kind = BallKind.soccer then
    { b with kind := BallKind.basketball, energy := 0, shooting := false }
  else
    { b with kind := BallKind.soccer, energy := 0, shooting := false }

/-- The opposite ball kind. -/
def otherKind : BallKind → BallKind
  | BallKind.soccer => BallKind.basketball
  | BallKind.basketball => BallKind.soccer

/-- The facing used by the shot handler: sign of faceOffset, or the last
non-neutral facing when idle. -/
def shootFacing (s : PlayerState) : ℤ :=
  if s.faceOffset < 0 then -1
  else if 0 < s.faceOffset then 1
  else s.lastFacing

/-- The horizontal shot speed assigned by the shot handler as a function of
the ball energy: linear interpolation between the two energy thresholds,
clamped. -/
def shotAssignedVX (energy : ℤ) : ℚ :=
  let t := clampf (((energy : ℚ) - SHOT_VX_HALF_SCREEN_AT) /
      (SHOT_VX_FULL_SCREEN_AT - SHOT_VX_HALF_SCREEN_AT)) 0 1
  8 + t * (SHOT_VX_MAX - 8)

/-- The SDLK_e shot handler: basketball only, requires the ball to touch the
player rectangle, the ball to be more than half a unit above its ground rest
height, and the player to be airborne; on success assigns the shot velocity
and sets the shooting flag. -/
def shootAttempt (s : PlayerState) (b : Ball) : Ball :=
  if b.kind = BallKind.basketball then
    let playerRect := playerRectOf s.playerX s.playerY
    let touching := distSqToRect b.x b.y playerRect ≤ b.radius * b.radius
    let ballGroundY := WORLD_HEIGHT - GROUND_HEIGHT - b.radius
    if touching ∧ b.y < ballGroundY - 1/2 ∧ s.isGrounded = false then
      { b with shooting := true,
               vx := (shootFacing s : ℚ) * shotAssignedVX b.energy,
               vy := -(SHOT_VY_BASE + (b.energy : ℚ) * SHOT_VY_PER_ENERGY) }
    else b
  else b

/-- The damping and clamp applied to the horizontal velocity of a shooting
basketball on the physics update following the shot assignment. -/
def shootingDampClamp (vx : ℚ) : ℚ :=
  let v := vx * BALL_AIR_DRAG
  let v1 := if |v| < 1/1000 then 0 else v
  clampf v1 (-BALL_MAX_VX) BALL_MAX_VX

/-- Effective horizontal speed of a shot one physics update after the shot
assignment: the assigned speed after the shooting-branch damping and the
safety clamp. -/
def effectiveShotVX (energy : ℤ) : ℚ := shootingDampClamp (shotAssignedVX energy)

/-- Sample rectangle: a default editor platform (192 by 32). -/
def sampleRect : Rect := { x := 0, y := 0, w := 192, h := 32 }

/-- Sample ball whose center sits at the middle of sampleRect. -/
def sampleInsideBall : Ball :=
  { kind := BallKind.soccer, x := 96, y := 16, vx := 0, vy := 0, radius := 18,
    active := true, energy := 0, shooting := false }

/-- Sample ball overlapping sampleRect from above with its center outside. -/
def sampleOutsideBall : Ball :=
  { kind := BallKind.soccer, x := 96, y := -10, vx := 0, vy := 4, radius := 18,
    active := true, energy := 0, shooting := false }

/-- Sample airborne player about to land unboosted at level 0. -/
def sampleSettlePlayer : PlayerState :=
  { playerX := 0, playerY := 36, velocityY := 20, isGrounded := false,
    wasInAir := true, bounceLevel := 0, spacePressed := false,
    spacePressedThisFall := false, hadSmallRebound := false,
    faceOffset := 0, lastFacing := 1, lastPlayerX := 0 }

/-- Sample airborne player landing with the boost flag set from level 2. -/
def sampleBoostPlayer : PlayerState :=
  { sampleSettlePlayer with bounceLevel := 2, spacePressedThisFall := true }

/-- Sample grounded player at level 0 (initial-jump configuration). -/
def sampleGroundedPlayer : PlayerState :=
  { sampleSettlePlayer with
    playerY := 1312, velocityY := 0, isGrounded := true, wasInAir := false }

/-- Sample airborne falling player at level 1 with distance 65 to the
ground plane and space held. -/
def sampleTimingPlayer : PlayerState :=
  { sampleSettlePlayer with
    playerY := 1247, velocityY := 5, bounceLevel := 1, spacePressed := true }

/-- First platform of the order-dependence scenario (top at 115). -/
def samplePlatformA : Platform :=
  { rect := { x := 0, y := 115, w := 192, h := 32 }, isSolid := true }

/-- Second, geometrically nearer platform of the scenario (top at 105). -/
def samplePlatformB : Platform :=
  { rect := { x := 0, y := 105, w := 192, h := 32 }, isSolid := true }

/-- Sample airborne player used for the shot scenarios. -/
def sampleShootPlayer : PlayerState :=
  { sampleSettlePlayer with playerX := 100, playerY := 1300 }

/-- Sample basketball overlapping the player and slightly (a quarter unit)
above its ground rest height 1358. -/
def sampleLowBall : Ball :=
  { kind := BallKind.basketball, x := 130, y := 13579/10, vx := 0, vy := 0,
    radius := 18, active := true, energy := 5, shooting := false }

/-- Sample basketball overlapping the player, well above rest height. -/
def sampleHighBall : Ball := { sampleLowBall with y := 1340 }

/-- Sample shooting basketball used to relate the shot speed to the tick. -/
def sampleShotBall : Ball := { sampleHighBall with shooting := true, vx := 16 }

/-- First basket of the overlapping-baskets scenario. -/
def sampleBasketA : Basket := { rect := { x := 100, y := 100, w := 128, h := 64 } }

/-- Second, overlapping basket of the scenario. -/
def sampleBasketB : Basket := { rect := { x := 120, y := 120, w := 128, h := 64 } }

/-- Sample ball whose center lies inside both sample baskets. -/
def sampleScoredBall : Ball := { sampleLowBall with x := 150, y := 130 }

theorem clampf_le_hi (v lo hi : ℚ) (h : lo ≤ hi) : clampf v lo hi ≤ hi :=
  max_le h (min_le_right v hi)

theorem abs_clampf_le (v c : ℚ) (hc : 0 ≤ c) : |clampf v (-c) c| ≤ c := by
  rw [abs_le]
  exact ⟨le_max_left _ _, max_le (by linarith) (min_le_right v c)⟩

theorem clampVel_vx_le (b : Ball) : |(clampVel b).vx| ≤ BALL_MAX_VX := by
  have h : (0:ℚ) ≤ BALL_MAX_VX := by norm_num [BALL_MAX_VX]
  simpa [clampVel] using abs_clampf_le b.vx BALL_MAX_VX h

theorem clampVel_vy_le (b : Ball) : |(clampVel b).vy| ≤ BALL_MAX_VY := by
  have h : (0:ℚ) ≤ BALL_MAX_VY := by norm_num [BALL_MAX_VY]
  simpa [clampVel] using abs_clampf_le b.vy BALL_MAX_VY h

theorem scoringLoop_vel_bounds (px py : ℚ) (b : Ball) (ks : List Basket)
    (hx : |b.vx| ≤ BALL_MAX_VX) (hy : |b.vy| ≤ BALL_MAX_VY) :
    |(scoringLoop px py b ks).vx| ≤ BALL_MAX_VX ∧
    |(scoringLoop px py b ks).vy| ≤ BALL_MAX_VY := by
  induction ks with
  | nil => exact ⟨hx, hy⟩
  | cons k ks ih =>
      by_cases h : basketContains k b
      · simp [scoringLoop, h]
        norm_num [BALL_MAX_VX, BALL_MAX_VY]
      · simpa [scoringLoop, h] using ih

/-- Claim C6: after any complete simulation tick in which the ball is active,
both ball velocity components lie within the fixed safety bounds, vx within
[-BALL_MAX_VX, BALL_MAX_VX] and vy within [-BALL_MAX_VY, BALL_MAX_VY],
regardless of collisions, player interactions or shots: the final clamp runs
after all interactions, and the scoring reset only zeroes the velocity. -/
theorem ball_tick_velocity_clamped (sqrtQ : ℚ → ℚ) (env : BallEnv) (b : Ball) :
    -BALL_MAX_VX ≤ (ballTick sqrtQ env b).vx ∧
    (ballTick sqrtQ env b).vx ≤ BALL_MAX_VX ∧
    -BALL_MAX_VY ≤ (ballTick sqrtQ env b).vy ∧
    (ballTick sqrtQ env b).vy ≤ BALL_MAX_VY := by
  have h := scoringLoop_vel_bounds env.playerX env.playerY
    (clampVel (playerPhase sqrtQ env (platformsPhase sqrtQ env
      (groundContactPhase (worldBoundsPhase (integratePhase
        (clampVel (dampPhase (gravityPhase b)))))))))
    env.baskets (clampVel_vx_le _) (clampVel_vy_le _)
  have hx := abs_le.mp h.1
  have hy := abs_le.mp h.2
  exact ⟨hx.1, hx.2, hy.1, hy.2⟩

/-- Claim C9: the toggle-ball-kind event switches the kind between the two
kinds, zeroes the energy and clears the shooting flag, leaving every other
ball field unchanged, for every prior ball state. -/
theorem toggle_ball_kind_resets (b : Ball) :
    (toggleBallKind b).kind = otherKind b.kind ∧
    (toggleBallKind b).energy = 0 ∧
    (toggleBallKind b).shooting = false ∧
    (toggleBallKind b).x = b.x ∧ (toggleBallKind b).y = b.y ∧
    (toggleBallKind b).vx = b.vx ∧ (toggleBallKind b).vy = b.vy ∧
    (toggleBallKind b).radius = b.radius ∧
    (toggleBallKind b).active = b.active := by
  rcases b with ⟨k, x, y, vx, vy, rad, act, en, sh⟩
  cases k <;> simp [toggleBallKind, otherKind]

/-- Claim C1: for every bounce level L in 1..5, a landing with the boost flag
set from level L-1 (ground or platform), as well as the initial jump taken
while grounded at level 0, sets the vertical velocity to exactly the level-L
bounce impulse, sets the bounce level to L (capped at 5), and leaves the
player airborne. -/
theorem bounce_boosted_landing_impulse (L : ℤ) (ps : List Platform)
    (s t : PlayerState)
    (hL1 : 1 ≤ L) (hL5 : L ≤ 5)
    (hair : s.wasInAir = true) (hboost : s.spacePressedThisFall = true)
    (hlev : s.bounceLevel = L - 1)
    (hg : t.isGrounded = true) (ht0 : t.bounceLevel = 0) :
    ((groundLand s).1.velocityY = bounceImpulse L ∧
     (groundLand s).1.bounceLevel = L ∧
     (groundLand s).1.isGrounded = false ∧
     (groundLand s).1.wasInAir = true) ∧
    ((platformLand s).1.velocityY = bounceImpulse L ∧
     (platformLand s).1.bounceLevel = L ∧
     (platformLand s).1.isGrounded = false ∧
     (platformLand s).1.wasInAir = true) ∧
    ((spaceKeydown ps t).velocityY = bounceImpulse 1 ∧
     (spaceKeydown ps t).bounceLevel = 1 ∧
     (spaceKeydown ps t).isGrounded = false) := by
  refine ⟨?_, ?_, ?_⟩
  · interval_cases L <;>
      simp [groundLand, landFinish, boostedLadder, hair, hboost, hlev,
        bounceImpulse]
  · interval_cases L <;>
      simp [platformLand, landFinish, boostedLadder, hair, hboost, hlev,
        bounceImpulse]
  · simp [spaceKeydown, hg, ht0, bounceImpulse]

/-- Witness for C1 at L = 3: a boosted landing from level 2 rebounds with the
level-3 impulse on both surfaces, and the grounded level-0 player jumps into
level 1. -/
theorem bounce_boosted_landing_impulse_witness :
    ((1:ℤ) ≤ 3 ∧ (3:ℤ) ≤ 5 ∧ sampleBoostPlayer.wasInAir = true ∧
     sampleBoostPlayer.spacePressedThisFall = true ∧
     sampleBoostPlayer.bounceLevel = 3 - 1 ∧
     sampleGroundedPlayer.isGrounded = true ∧
     sampleGroundedPlayer.bounceLevel = 0) ∧
    ((groundLand sampleBoostPlayer).1.velocityY = bounceImpulse 3 ∧
     (groundLand sampleBoostPlayer).1.bounceLevel = 3 ∧
     (groundLand sampleBoostPlayer).1.isGrounded = false ∧
     (groundLand sampleBoostPlayer).1.wasInAir = true) ∧
    ((spaceKeydown [] sampleGroundedPlayer).velocityY = bounceImpulse 1 ∧
     (spaceKeydown [] sampleGroundedPlayer).bounceLevel = 1 ∧
     (spaceKeydown [] sampleGroundedPlayer).isGrounded = false) :=
  ⟨by decide,
   (bounce_boosted_landing_impulse 3 [] sampleBoostPlayer sampleGroundedPlayer
      (by decide) (by decide) (by decide) (by decide) (by decide)
      (by decide) (by decide)).1,
   (bounce_boosted_landing_impulse 3 [] sampleBoostPlayer sampleGroundedPlayer
      (by decide) (by decide) (by decide) (by decide) (by decide)
      (by decide) (by decide)).2.2⟩

/-- Counterexample for C2 as stated: on a platform, the first unboosted
level-0 landing with the latch clear does not apply the small-rebound impulse
of -3; the player stops immediately with zero velocity and becomes grounded,
so the two-stage settle does not hold on the ground and on platforms alike. -/
theorem platform_level0_small_rebound_cex :
    sampleSettlePlayer.wasInAir = true ∧
    sampleSettlePlayer.spacePressedThisFall = false ∧
    sampleSettlePlayer.bounceLevel = 0 ∧
    sampleSettlePlayer.hadSmallRebound = false ∧
    (platformLand sampleSettlePlayer).1.velocityY ≠ BOUNCE_LEVEL0 ∧
    (platformLand sampleSettlePlayer).1.velocityY = 0 ∧
    (platformLand sampleSettlePlayer).1.isGrounded = true ∧
    (groundLand sampleSettlePlayer).1.velocityY = BOUNCE_LEVEL0 := by
  decide

/-- Claim C2 as amended: an unboosted landing decrements the level with floor
zero on both surfaces; if the resulting level is at least 1 the level impulse
applies and the player stays airborne on both surfaces; at resulting level 0
the two-stage small-rebound settle (impulse -3 once, then stop, guarded by
the latch) applies to ground landings only, while a platform landing at
resulting level 0 stops immediately with zero velocity, becomes grounded and
clears the latch. -/
theorem unboosted_landing_resolution (L : ℤ) (s : PlayerState)
    (hair : s.wasInAir = true) (hboost : s.spacePressedThisFall = false)
    (hlev : s.bounceLevel = L) (hL0 : 0 ≤ L) (hL5 : L ≤ 5) :
    ((groundLand s).1.bounceLevel = max 0 (L - 1) ∧
     (platformLand s).1.bounceLevel = max 0 (L - 1)) ∧
    (2 ≤ L →
      ((groundLand s).1.velocityY = bounceImpulse (L - 1) ∧
       (groundLand s).1.isGrounded = false ∧
       (platformLand s).1.velocityY = bounceImpulse (L - 1) ∧
       (platformLand s).1.isGrounded = false)) ∧
    (L ≤ 1 →
      ((s.hadSmallRebound = false →
         (groundLand s).1.velocityY = BOUNCE_LEVEL0 ∧
         (groundLand s).1.isGrounded = false ∧
         (groundLand s).1.hadSmallRebound = true) ∧
       (s.hadSmallRebound = true →
         (groundLand s).1.velocityY = 0 ∧
         (groundLand s).1.isGrounded = true ∧
         (groundLand s).1.hadSmallRebound = false) ∧
       ((platformLand s).1.velocityY = 0 ∧
        (platformLand s).1.isGrounded = true ∧
        (platformLand s).1.hadSmallRebound = false))) := by
  cases hsr : s.hadSmallRebound <;>
    (interval_cases L <;>
      simp [groundLand, platformLand, landFinish, unboostedGroundLadder,
        unboostedPlatformLadder, hair, hboost, hlev, hsr, bounceImpulse])

/-- Witness for the amended C2 at level 1 on the ground and level 0 on a
platform: the level-1 unboosted landing drops to level 0 with the small
rebound on the ground, and the platform landing at level 0 stops at once. -/
theorem unboosted_landing_resolution_witness :
    (sampleSettlePlayer.wasInAir = true ∧
     sampleSettlePlayer.spacePressedThisFall = false ∧
     sampleSettlePlayer.bounceLevel = 0 ∧ (0:ℤ) ≤ 0 ∧ (0:ℤ) ≤ 5 ∧
     sampleSettlePlayer.hadSmallRebound = false) ∧
    ((groundLand sampleSettlePlayer).1.velocityY = BOUNCE_LEVEL0 ∧
     (groundLand sampleSettlePlayer).1.isGrounded = false ∧
     (groundLand sampleSettlePlayer).1.hadSmallRebound = true) ∧
    ((platformLand sampleSettlePlayer).1.velocityY = 0 ∧
     (platformLand sampleSettlePlayer).1.isGrounded = true ∧
     (platformLand sampleSettlePlayer).1.hadSmallRebound = false) :=
  ⟨by decide,
   ((unboosted_landing_resolution 0 sampleSettlePlayer (by decide) (by decide)
      (by decide) (by decide) (by decide)).2.2 (by decide)).1 (by decide),
   ((unboosted_landing_resolution 0 sampleSettlePlayer (by decide) (by decide)
      (by decide) (by decide) (by decide)).2.2 (by decide)).2.2⟩

theorem foldr_min_min (l : List ℚ) (a b : ℚ) :
    l.foldr min (min a b) = min b (l.foldr min a) := by
  induction l with
  | nil => exact min_comm a b
  | cons c l ih =>
      simp only [List.foldr, ih]
      exact min_left_comm c b (l.foldr min a)

theorem minSurfaceLoop_foldr (s : PlayerState) (ps : List Platform) :
    ∀ acc : ℚ, minSurfaceLoop s acc ps = (platformDistances s ps).foldr min acc := by
  induction ps with
  | nil => intro acc; rfl
  | cons p ps ih =>
      intro acc
      by_cases hq : timingQualifies s p
      · have hd : (0:ℚ) ≤ (p.rect.y : ℚ) - (s.playerY + PLAYER_SIZE) := by
          have := hq.2.2.2
          linarith
        have hstep : minSurfaceLoop s acc (p :: ps) =
            minSurfaceLoop s
              (min acc ((p.rect.y : ℚ) - (s.playerY + PLAYER_SIZE))) ps := by
          simp only [minSurfaceLoop, hq, if_pos, hd, true_and]
          rcases lt_or_le ((p.rect.y : ℚ) - (s.playerY + PLAYER_SIZE)) acc with h | h
          · rw [if_pos h, min_eq_right (le_of_lt h)]
          · rw [if_neg (not_lt.mpr h), min_eq_left h]
        rw [hstep, ih]
        have hlist : platformDistances s (p :: ps) =
            ((p.rect.y : ℚ) - (s.playerY + PLAYER_SIZE)) :: platformDistances s ps := by
          simp [platformDistances, hq]
        rw [hlist]
        simpa [List.foldr] using
          foldr_min_min (platformDistances s ps) acc
            ((p.rect.y : ℚ) - (s.playerY + PLAYER_SIZE))
      · have hstep : minSurfaceLoop s acc (p :: ps) = minSurfaceLoop s acc ps := by
          simp [minSurfaceLoop, hq]
        have hlist : platformDistances s (p :: ps) = platformDistances s ps := by
          simp [platformDistances, hq]
        rw [hstep, ih, hlist]

/-- Claim C3: while airborne, falling, boost not yet taken this fall and
space held, the jump input is accepted exactly when the minimum of the ground
distance and the distances to all qualifying platforms (collidable,
horizontally overlapping, strictly below the player bottom) is positive and
within the level threshold (80, 70, 60, 50, 40, then 30 from level 5 on); on
acceptance the boost flag is set and exactly the downward-force increment of
3 is added to the vertical velocity, with no other state change. -/
theorem timing_window_acceptance (ps : List Platform) (s : PlayerState)
    (hg : s.isGrounded = false) (hp : s.spacePressed = true)
    (hf : s.spacePressedThisFall = false) (hv : 0 < s.velocityY) :
    minSurfaceDistance s ps = minSurfaceDistSpec s ps ∧
    (0 < minSurfaceDistSpec s ps ∧
       minSurfaceDistSpec s ps ≤ distanceThreshold s.bounceLevel →
      heldSpaceCheck ps s =
        { s with spacePressedThisFall := true,
                 velocityY := s.velocityY + DOWNWARD_FORCE }) ∧
    (¬(0 < minSurfaceDistSpec s ps ∧
        minSurfaceDistSpec s ps ≤ distanceThreshold s.bounceLevel) →
      heldSpaceCheck ps s = s) := by
  have he : minSurfaceDistance s ps = minSurfaceDistSpec s ps :=
    minSurfaceLoop_foldr s ps (groundDistance s)
  refine ⟨he, ?_, ?_⟩
  · rintro ⟨h1, h2⟩
    rw [heldSpaceCheck, if_pos ⟨hg, hp, hf, hv⟩, timingCheck]
    rw [if_pos]
    rw [he]
    exact ⟨h2, h1⟩
  · intro h
    rw [heldSpaceCheck, if_pos ⟨hg, hp, hf, hv⟩, timingCheck]
    rw [if_neg]
    intro hc
    rw [he] at hc
    exact h ⟨hc.2, hc.1⟩

/-- Witness for C3: airborne falling player at level 1, empty platform list,
distance 65 to the ground plane, threshold 70: the input is accepted, the
boost flag is set and the velocity gains exactly 3. -/
theorem timing_window_acceptance_witness :
    (sampleTimingPlayer.isGrounded = false ∧
     sampleTimingPlayer.spacePressed = true ∧
     sampleTimingPlayer.spacePressedThisFall = false ∧
     (0:ℚ) < sampleTimingPlayer.velocityY ∧
     minSurfaceDistSpec sampleTimingPlayer [] = 65 ∧
     distanceThreshold sampleTimingPlayer.bounceLevel = 70) ∧
    heldSpaceCheck [] sampleTimingPlayer =
      { sampleTimingPlayer with
        spacePressedThisFall := true,
        velocityY := sampleTimingPlayer.velocityY + DOWNWARD_FORCE } :=
  ⟨by with_unfolding_all decide,
   (timing_window_acceptance [] sampleTimingPlayer (by decide) (by decide)
      (by decide) (by decide)).2.1 (by with_unfolding_all decide)⟩

theorem landFinish_playerY (t : PlayerState × Bool) :
    (landFinish t).1.playerY = t.1.playerY := by
  simp only [landFinish]
  split_ifs <;> rfl

theorem boostedLadder_playerY (c : Bool) (s : PlayerState) :
    (boostedLadder c s).1.playerY = s.playerY := by
  simp only [boostedLadder]
  split_ifs <;> rfl

theorem unboostedPlatformLadder_playerY (s : PlayerState) :
    (unboostedPlatformLadder s).1.playerY = s.playerY := by
  simp only [unboostedPlatformLadder]
  split_ifs <;> rfl

theorem platformLand_playerY (s : PlayerState) :
    (platformLand s).1.playerY = s.playerY := by
  by_cases hw : s.wasInAir = true
  · by_cases hb : s.spacePressedThisFall = true
    · simp [platformLand, hw, hb, landFinish_playerY, boostedLadder_playerY]
    · simp [platformLand, hw, hb, landFinish_playerY,
        unboostedPlatformLadder_playerY]
  · simp [platformLand, hw]

/-- Claim C5: with the player falling or resting and outside editor mode, the
first platform of the stored order passing the landing test (collidable,
horizontal overlap, swept crossing of its top) is taken as the landing
surface regardless of what follows it in the list, in particular even if a
later platform is geometrically nearer; the player bottom is snapped exactly
onto its top, landing resolution runs and a landing event is raised, and when
the head platform fails the test the loop moves on to the rest. -/
theorem platform_first_match_landing (s : PlayerState) (p : Platform)
    (rest : List Platform)
    (hv : 0 ≤ s.velocityY) (hpred : platformLandingPred s p) :
    platformPhase false s (p :: rest) =
      ((platformLand { s with playerY := (p.rect.y : ℚ) - PLAYER_SIZE }).1, true) ∧
    (platformPhase false s (p :: rest)).1.playerY + PLAYER_SIZE = (p.rect.y : ℚ) ∧
    (platformPhase false s (p :: rest)).2 = true ∧
    (∀ q rest2, ¬ platformLandingPred s q →
      platformLoop s (q :: rest2) = platformLoop s rest2) := by
  have hphase : platformPhase false s (p :: rest) =
      ((platformLand { s with playerY := (p.rect.y : ℚ) - PLAYER_SIZE }).1, true) := by
    rw [platformPhase, if_pos ⟨rfl, hv⟩, platformLoop, if_pos hpred]
  refine ⟨hphase, ?_, ?_, ?_⟩
  · rw [hphase]
    simp [platformLand_playerY]
  · rw [hphase]
  · intro q rest2 hq
    rw [platformLoop, if_neg hq]

/-- Witness for C5: two platforms both pass the landing test for the sample
player, the second (top 105) strictly nearer below the player bottom (100)
than the first (top 115); the loop still lands on the first and snaps the
player bottom to 115. -/
theorem platform_first_match_landing_witness :
    ((0:ℚ) ≤ sampleSettlePlayer.velocityY ∧
     platformLandingPred sampleSettlePlayer samplePlatformA ∧
     platformLandingPred sampleSettlePlayer samplePlatformB ∧
     samplePlatformB.rect.y < samplePlatformA.rect.y) ∧
    (platformPhase false sampleSettlePlayer [samplePlatformA, samplePlatformB]).1.playerY
        + PLAYER_SIZE = (samplePlatformA.rect.y : ℚ) ∧
    (platformPhase false sampleSettlePlayer [samplePlatformA, samplePlatformB]).2 = true :=
  ⟨by with_unfolding_all decide,
   (platform_first_match_landing sampleSettlePlayer samplePlatformA
      [samplePlatformB] (by decide) (by with_unfolding_all decide)).2.1,
   (platform_first_match_landing sampleSettlePlayer samplePlatformA
      [samplePlatformB] (by decide) (by with_unfolding_all decide)).2.2.1⟩

/-- Claim C8: the first basket in list order whose rectangle contains the
ball center with inclusive bounds resets the ball to the fixed offset from
the current player position with zero velocity and stops the scan, so at most
one reset happens per tick even for overlapping baskets; a non-containing
head basket just passes control to the rest of the list. -/
theorem basket_scoring_first_match (px py : ℚ) (b : Ball) (k : Basket)
    (ks : List Basket) :
    (basketContains k b →
      scoringLoop px py b (k :: ks) =
        { b with x := px + PLAYER_SIZE + 20, y := py + PLAYER_SIZE - 40,
                 vx := 0, vy := 0 }) ∧
    (¬ basketContains k b →
      scoringLoop px py b (k :: ks) = scoringLoop px py b ks) := by
  constructor
  · intro h
    rw [scoringLoop, if_pos h]
  · intro h
    rw [scoringLoop, if_neg h]

/-- Witness for C8: the sample ball center lies inside both overlapping
sample baskets; the scan resets the ball once, at the first basket, to the
fixed offset from the player position (7, 11), and ignores the second. -/
theorem basket_scoring_first_match_witness :
    (basketContains sampleBasketA sampleScoredBall ∧
     basketContains sampleBasketB sampleScoredBall) ∧
    scoringLoop 7 11 sampleScoredBall [sampleBasketA, sampleBasketB] =
      { sampleScoredBall with x := 7 + PLAYER_SIZE + 20, y := 11 + PLAYER_SIZE - 40,
                              vx := 0, vy := 0 } :=
  ⟨by with_unfolding_all decide,
   (basket_scoring_first_match 7 11 sampleScoredBall sampleBasketA
      [sampleBasketB]).1 (by with_unfolding_all decide)⟩

/-- Counterexample for C7 as stated: a basketball touching the airborne
player with its center a quarter unit above the ground rest height (1358)
satisfies every gate of the claim (kind, touching, above rest height, player
airborne), yet the shot handler does not launch, because the code requires
the ball to be more than half a unit above the rest height. -/
theorem shoot_airborne_margin_cex :
    sampleLowBall.kind = BallKind.basketball ∧
    distSqToRect sampleLowBall.x sampleLowBall.y
        (playerRectOf sampleShootPlayer.playerX sampleShootPlayer.playerY) ≤
      sampleLowBall.radius * sampleLowBall.radius ∧
    sampleLowBall.y < WORLD_HEIGHT - GROUND_HEIGHT - sampleLowBall.radius ∧
    sampleShootPlayer.isGrounded = false ∧
    shootAttempt sampleShootPlayer sampleLowBall = sampleLowBall ∧
    (shootAttempt sampleShootPlayer sampleLowBall).shooting = false := by
  refine ⟨by decide, ?_, ?_, by decide, ?_, ?_⟩
  · with_unfolding_all decide
  · with_unfolding_all decide
  · with_unfolding_all rfl
  · with_unfolding_all rfl

/-- Claim C7 as amended: the shot launches exactly when the ball kind is
Basketball, the ball touches the player rectangle (closest-point squared
distance at most radius squared), the ball center is more than half a world
unit above its ground rest height, and the player is airborne; on launch the
horizontal velocity is the facing sign (last non-neutral facing when idle)
times 8 + clamp((energy-6)/(11-6), 0, 1) * (18-8), the vertical velocity is
-(14 + energy * 0.6), the shooting flag becomes true, and the energy and all
other fields are unchanged. -/
theorem shoot_launch_characterization (s : PlayerState) (b : Ball) :
    (b.kind = BallKind.basketball →
     distSqToRect b.x b.y (playerRectOf s.playerX s.playerY) ≤
        b.radius * b.radius →
     b.y < WORLD_HEIGHT - GROUND_HEIGHT - b.radius - 1/2 →
     s.isGrounded = false →
      shootAttempt s b =
        { b with shooting := true,
                 vx := (shootFacing s : ℚ) *
                   (8 + clampf (((b.energy : ℚ) - 6) / (11 - 6)) 0 1 * (18 - 8)),
                 vy := -(14 + (b.energy : ℚ) * (6/10)) }) ∧
    (¬(b.kind = BallKind.basketball ∧
       distSqToRect b.x b.y (playerRectOf s.playerX s.playerY) ≤
          b.radius * b.radius ∧
       b.y < WORLD_HEIGHT - GROUND_HEIGHT - b.radius - 1/2 ∧
       s.isGrounded = false) →
      shootAttempt s b = b) ∧
    (shootAttempt s b).energy = b.energy := by
  refine ⟨?_, ?_, ?_⟩
  · intro hk ht hy hg
    rw [shootAttempt, if_pos hk, if_pos ⟨ht, hy, hg⟩]
    simp [shotAssignedVX, SHOT_VX_HALF_SCREEN_AT, SHOT_VX_FULL_SCREEN_AT,
      SHOT_VX_MAX, SHOT_VY_BASE, SHOT_VY_PER_ENERGY]
  · intro h
    by_cases hk : b.kind = BallKind.basketball
    · have hrest : ¬(distSqToRect b.x b.y (playerRectOf s.playerX s.playerY) ≤
          b.radius * b.radius ∧
          b.y < WORLD_HEIGHT - GROUND_HEIGHT - b.radius - 1/2 ∧
          s.isGrounded = false) := fun hc => h ⟨hk, hc⟩
      rw [shootAttempt, if_pos hk, if_neg hrest]
    · rw [shootAttempt, if_neg hk]
  · by_cases hk : b.kind = BallKind.basketball
    · by_cases hc : distSqToRect b.x b.y (playerRectOf s.playerX s.playerY) ≤
          b.radius * b.radius ∧
          b.y < WORLD_HEIGHT - GROUND_HEIGHT - b.radius - 1/2 ∧
          s.isGrounded = false
      · rw [shootAttempt, if_pos hk, if_pos hc]
      · rw [shootAttempt, if_pos hk, if_neg hc]
    · rw [shootAttempt, if_neg hk]

/-- Witness for the amended C7: a basketball with energy 5 at height 1340,
touching the airborne player, launches with horizontal velocity 8 (facing 1,
interpolation parameter clamped to 0) and vertical velocity -17. -/
theorem shoot_launch_characterization_witness :
    (sampleHighBall.kind = BallKind.basketball ∧
     distSqToRect sampleHighBall.x sampleHighBall.y
        (playerRectOf sampleShootPlayer.playerX sampleShootPlayer.playerY) ≤
       sampleHighBall.radius * sampleHighBall.radius ∧
     sampleHighBall.y < WORLD_HEIGHT - GROUND_HEIGHT - sampleHighBall.radius - 1/2 ∧
     sampleShootPlayer.isGrounded = false) ∧
    shootAttempt sampleShootPlayer sampleHighBall =
      { sampleHighBall with
        shooting := true,
        vx := (shootFacing sampleShootPlayer : ℚ) *
          (8 + clampf (((sampleHighBall.energy : ℚ) - 6) / (11 - 6)) 0 1 * (18 - 8)),
        vy := -(14 + (sampleHighBall.energy : ℚ) * (6/10)) } :=
  ⟨⟨by decide, by with_unfolding_all decide, by with_unfolding_all decide,
    by decide⟩,
   (shoot_launch_characterization sampleShootPlayer sampleHighBall).1
     (by decide) (by with_unfolding_all decide)
     (by with_unfolding_all decide) (by decide)⟩

/-- Counterexample for C10 as stated: the claim holds that all shots with
energy at least 9 travel at the same effective horizontal speed, but the air
drag of 0.995 is applied before the clamp, so the energy-9 shot (assigned
speed exactly 14) travels at 13.93 while the energy-10 shot (assigned 16,
clamped) travels at 14. -/
theorem effective_shot_speed_energy9_cex :
    shotAssignedVX 9 = 14 ∧
    effectiveShotVX 9 = 1393/100 ∧
    effectiveShotVX 10 = 14 ∧
    effectiveShotVX 9 ≠ effectiveShotVX 10 := by
  set_option maxRecDepth 4000 in with_unfolding_all decide

/-- Claim C10 as amended: the effective horizontal speed one physics update
after a shot (assigned speed, then the shooting-branch damping and the safety
clamp of the next update) never exceeds BALL_MAX_VX = 14; every shot with
energy at least 10 (assigned speed at least 16, which stays above 14 after
drag) travels at exactly the clamp value 14; and for a shooting basketball
the damping and clamp stage of the tick computes exactly this function of the
incoming horizontal velocity. -/
theorem effective_shot_speed_cap (e : ℤ) (b : Ball) :
    effectiveShotVX e ≤ BALL_MAX_VX ∧
    (10 ≤ e → effectiveShotVX e = BALL_MAX_VX) ∧
    (b.kind = BallKind.basketball → b.shooting = true →
      (clampVel (dampPhase (gravityPhase b))).vx = shootingDampClamp b.vx) := by
  refine ⟨?_, ?_, ?_⟩
  · have h : (-BALL_MAX_VX : ℚ) ≤ BALL_MAX_VX := by norm_num [BALL_MAX_VX]
    exact clampf_le_hi _ _ _ h
  · intro he
    have he10 : (10 : ℚ) ≤ (e : ℚ) := by exact_mod_cast he
    have ht : (4/5 : ℚ) ≤ clampf (((e : ℚ) - SHOT_VX_HALF_SCREEN_AT) /
        (SHOT_VX_FULL_SCREEN_AT - SHOT_VX_HALF_SCREEN_AT)) 0 1 := by
      rw [clampf, SHOT_VX_HALF_SCREEN_AT, SHOT_VX_FULL_SCREEN_AT]
      have hq : (4/5 : ℚ) ≤ ((e : ℚ) - 6) / (11 - 6) := by linarith
      have hmin : (4/5 : ℚ) ≤ min (((e : ℚ) - 6) / (11 - 6)) 1 :=
        le_min hq (by norm_num)
      exact hmin.trans (le_max_right 0 _)
    have ht1 : clampf (((e : ℚ) - SHOT_VX_HALF_SCREEN_AT) /
        (SHOT_VX_FULL_SCREEN_AT - SHOT_VX_HALF_SCREEN_AT)) 0 1 ≤ 1 := by
      rw [clampf]
      exact max_le (by norm_num) (min_le_right _ 1)
    set t := clampf (((e : ℚ) - SHOT_VX_HALF_SCREEN_AT) /
        (SHOT_VX_FULL_SCREEN_AT - SHOT_VX_HALF_SCREEN_AT)) 0 1 with hts
    have hassigned : (16 : ℚ) ≤ shotAssignedVX e := by
      rw [shotAssignedVX, ← hts, SHOT_VX_MAX]
      linarith
    have hv : (398/25 : ℚ) ≤ shotAssignedVX e * BALL_AIR_DRAG := by
      rw [BALL_AIR_DRAG]
      linarith
    rw [effectiveShotVX, shootingDampClamp]
    have hns : ¬ |shotAssignedVX e * BALL_AIR_DRAG| < 1/1000 := by
      rw [not_lt, abs_of_nonneg (by linarith)]
      linarith
    rw [if_neg hns, clampf, BALL_MAX_VX]
    rw [min_eq_right (by linarith)]
    rw [max_eq_right (by norm_num)]
  · intro hk hs
    have hcond : ¬(b.kind = BallKind.basketball ∧ b.shooting = false) := by
      rintro ⟨-, hfalse⟩
      rw [hs] at hfalse
      simp at hfalse
    simp [gravityPhase, dampPhase, clampVel, shootingDampClamp, hcond]

/-- Witness for the amended C10 at energy 10 with the sample shooting ball:
the effective shot speed equals the clamp value 14, and the damping and clamp
stage of the tick agrees with the effective-speed function. -/
theorem effective_shot_speed_cap_witness :
    ((10:ℤ) ≤ 10 ∧ sampleShotBall.kind = BallKind.basketball ∧
     sampleShotBall.shooting = true) ∧
    effectiveShotVX 10 = BALL_MAX_VX ∧
    (clampVel (dampPhase (gravityPhase sampleShotBall))).vx =
      shootingDampClamp sampleShotBall.vx :=
  ⟨by decide,
   (effective_shot_speed_cap 10 sampleShotBall).2.1 (by decide),
   (effective_shot_speed_cap 10 sampleShotBall).2.2 (by decide) (by decide)⟩

theorem clampf_push_fixed (cx lo hi t : ℚ) (hlh : lo ≤ hi) (ht : 0 < t) :
    clampf (clampf cx lo hi + t * (cx - clampf cx lo hi)) lo hi = clampf cx lo hi := by
  rcases lt_or_le cx lo with h1 | h1
  · have hpx : clampf cx lo hi = lo := by
      rw [clampf, min_eq_left (le_of_lt (lt_of_lt_of_le h1 hlh)),
        max_eq_left (le_of_lt h1)]
    rw [hpx]
    have harg : lo + t * (cx - lo) < lo := by nlinarith
    rw [clampf, min_eq_left (le_of_lt (lt_of_lt_of_le harg hlh)),
      max_eq_left (le_of_lt harg)]
  · rcases le_or_lt cx hi with h2 | h2
    · have hpx : clampf cx lo hi = cx := by
        rw [clampf, min_eq_left h2, max_eq_right h1]
      rw [hpx]
      have hz : cx + t * (cx - cx) = cx := by ring
      rw [hz, clampf, min_eq_left h2, max_eq_right h1]
    · have hpx : clampf cx lo hi = hi := by
        rw [clampf, min_eq_right (le_of_lt h2), max_eq_right hlh]
      rw [hpx]
      have harg : hi < hi + t * (cx - hi) := by nlinarith
      rw [clampf, min_eq_right (le_of_lt harg), max_eq_right hlh]

theorem resolveCircleRect_outside_formula (sqrtQ : ℚ → ℚ) (c : Ball) (r : Rect)
    (k : ℚ)
    (hd0 : distSqToRect c.x c.y r ≠ 0)
    (hcol : distSqToRect c.x c.y r < c.radius * c.radius) :
    (resolveCircleRect sqrtQ c r k).2 = true ∧
    (resolveCircleRect sqrtQ c r k).1.x =
      c.x + (c.x - clampf c.x (r.x : ℚ) ((r.x + r.w : ℤ) : ℚ)) /
        sqrtQ (distSqToRect c.x c.y r) *
        (c.radius - sqrtQ (distSqToRect c.x c.y r)) ∧
    (resolveCircleRect sqrtQ c r k).1.y =
      c.y + (c.y - clampf c.y (r.y : ℚ) ((r.y + r.h : ℤ) : ℚ)) /
        sqrtQ (distSqToRect c.x c.y r) *
        (c.radius - sqrtQ (distSqToRect c.x c.y r)) := by
  have hd2 : distSqToRect c.x c.y r =
      (c.x - clampf c.x (r.x : ℚ) ((r.x + r.w : ℤ) : ℚ)) *
        (c.x - clampf c.x (r.x : ℚ) ((r.x + r.w : ℤ) : ℚ)) +
      (c.y - clampf c.y (r.y : ℚ) ((r.y + r.h : ℤ) : ℚ)) *
        (c.y - clampf c.y (r.y : ℚ) ((r.y + r.h : ℤ) : ℚ)) := rfl
  rw [resolveCircleRect]
  rw [if_neg (by rw [← hd2] at *; exact not_le.mpr hcol)]
  rw [if_neg (by rw [← hd2] at *; exact hd0)]
  rw [← hd2]
  dsimp only
  refine ⟨rfl, ?_, ?_⟩
  · split <;> rfl
  · split <;> rfl

/-- Counterexample for C4 as stated: a circle of radius 18 whose center
coincides with the center of a 192 by 32 rectangle is reported as colliding,
but the degenerate push-out branch sets the working squared distance to 1 and
therefore moves the center only radius - 1 units along the shallowest axis:
the resolved center sits at squared distance 1 from the rectangle, far below
(radius - tolerance) squared for every small tolerance (with tolerance 1/2
the required squared distance is 1225/4). -/
theorem circle_rect_center_inside_cex :
    (resolveCircleRect ratSqrt sampleInsideBall sampleRect (72/100)).2 = true ∧
    distSqToRect
        (resolveCircleRect ratSqrt sampleInsideBall sampleRect (72/100)).1.x
        (resolveCircleRect ratSqrt sampleInsideBall sampleRect (72/100)).1.y
        sampleRect = 1 ∧
    (1 : ℚ) < (sampleInsideBall.radius - 1/2) * (sampleInsideBall.radius - 1/2) := by
  refine ⟨?_, ?_, ?_⟩
  · with_unfolding_all rfl
  · with_unfolding_all decide
  · with_unfolding_all decide

/-- Claim C4 as amended: whenever the circle center is strictly outside the
rectangle (positive distance), the rectangle spans are non-negative, the
radius is positive, the collision fires, and the square-root routine is exact
at the computed squared distance, the resolution pushes the center to squared
distance exactly radius squared from the rectangle (no residual overlap, with
zero tolerance). When the center lies on or inside the rectangle the
primitive can leave residual overlap, as the counterexample shows. -/
theorem circle_rect_outside_resolution (sqrtQ : ℚ → ℚ) (c : Ball) (r : Rect)
    (k : ℚ)
    (hw : 0 ≤ r.w) (hh : 0 ≤ r.h) (hr : 0 < c.radius)
    (hd0 : distSqToRect c.x c.y r ≠ 0)
    (hcol : distSqToRect c.x c.y r < c.radius * c.radius)
    (hs : sqrtQ (distSqToRect c.x c.y r) * sqrtQ (distSqToRect c.x c.y r) =
      distSqToRect c.x c.y r)
    (hsp : 0 < sqrtQ (distSqToRect c.x c.y r)) :
    (resolveCircleRect sqrtQ c r k).2 = true ∧
    distSqToRect (resolveCircleRect sqrtQ c r k).1.x
      (resolveCircleRect sqrtQ c r k).1.y r = c.radius * c.radius := by
  obtain ⟨h2, hx, hy⟩ := resolveCircleRect_outside_formula sqrtQ c r k hd0 hcol
  refine ⟨h2, ?_⟩
  have hsne : sqrtQ (distSqToRect c.x c.y r) ≠ 0 := ne_of_gt hsp
  have hlhx : (r.x : ℚ) ≤ ((r.x + r.w : ℤ) : ℚ) := by
    have hle : (r.x : ℤ) ≤ r.x + r.w := by omega
    exact_mod_cast hle
  have hlhy : (r.y : ℚ) ≤ ((r.y + r.h : ℤ) : ℚ) := by
    have hle : (r.y : ℤ) ≤ r.y + r.h := by omega
    exact_mod_cast hle
  have ht : 0 < c.radius / sqrtQ (distSqToRect c.x c.y r) := div_pos hr hsp
  have hx2 : (resolveCircleRect sqrtQ c r k).1.x =
      clampf c.x (r.x : ℚ) ((r.x + r.w : ℤ) : ℚ) +
        (c.radius / sqrtQ (distSqToRect c.x c.y r)) *
        (c.x - clampf c.x (r.x : ℚ) ((r.x + r.w : ℤ) : ℚ)) := by
    rw [hx]; field_simp; ring
  have hy2 : (resolveCircleRect sqrtQ c r k).1.y =
      clampf c.y (r.y : ℚ) ((r.y + r.h : ℤ) : ℚ) +
        (c.radius / sqrtQ (distSqToRect c.x c.y r)) *
        (c.y - clampf c.y (r.y : ℚ) ((r.y + r.h : ℤ) : ℚ)) := by
    rw [hy]; field_simp; ring
  have hcx : clampf (resolveCircleRect sqrtQ c r k).1.x (r.x : ℚ)
      ((r.x + r.w : ℤ) : ℚ) = clampf c.x (r.x : ℚ) ((r.x + r.w : ℤ) : ℚ) := by
    rw [hx2]
    exact clampf_push_fixed c.x _ _ _ hlhx ht
  have hcy : clampf (resolveCircleRect sqrtQ c r k).1.y (r.y : ℚ)
      ((r.y + r.h : ℤ) : ℚ) = clampf c.y (r.y : ℚ) ((r.y + r.h : ℤ) : ℚ) := by
    rw [hy2]
    exact clampf_push_fixed c.y _ _ _ hlhy ht
  have hd2 : (c.x - clampf c.x (r.x : ℚ) ((r.x + r.w : ℤ) : ℚ)) *
        (c.x - clampf c.x (r.x : ℚ) ((r.x + r.w : ℤ) : ℚ)) +
      (c.y - clampf c.y (r.y : ℚ) ((r.y + r.h : ℤ) : ℚ)) *
        (c.y - clampf c.y (r.y : ℚ) ((r.y + r.h : ℤ) : ℚ)) =
      sqrtQ (distSqToRect c.x c.y r) * sqrtQ (distSqToRect c.x c.y r) := by
    rw [hs]; rfl
  show (_ - _) * (_ - _) + (_ - _) * (_ - _) = c.radius * c.radius
  rw [hcx, hcy, hx2, hy2]
  set a := c.x - clampf c.x (r.x : ℚ) ((r.x + r.w : ℤ) : ℚ) with ha
  set b := c.y - clampf c.y (r.y : ℚ) ((r.y + r.h : ℤ) : ℚ) with hb
  set sv := sqrtQ (distSqToRect c.x c.y r) with hsv
  have hmain : (clampf c.x (r.x : ℚ) ((r.x + r.w : ℤ) : ℚ) +
      c.radius / sv * a - clampf c.x (r.x : ℚ) ((r.x + r.w : ℤ) : ℚ)) *
      (clampf c.x (r.x : ℚ) ((r.x + r.w : ℤ) : ℚ) +
      c.radius / sv * a - clampf c.x (r.x : ℚ) ((r.x + r.w : ℤ) : ℚ)) +
      (clampf c.y (r.y : ℚ) ((r.y + r.h : ℤ) : ℚ) +
      c.radius / sv * b - clampf c.y (r.y : ℚ) ((r.y + r.h : ℤ) : ℚ)) *
      (clampf c.y (r.y : ℚ) ((r.y + r.h : ℤ) : ℚ) +
      c.radius / sv * b - clampf c.y (r.y : ℚ) ((r.y + r.h : ℤ) : ℚ)) =
      (a * a + b * b) * (c.radius / sv) * (c.radius / sv) := by ring
  rw [hmain, hd2]
  field_simp
  ring

/-- Witness for the amended C4: the sample circle of radius 18 centered at
(96, -10), ten units above the sample rectangle, has squared distance 100
with exact rational square root 10; after resolution its squared distance to
the rectangle is exactly 324, the squared radius. -/
theorem circle_rect_outside_resolution_witness :
    ((0:ℤ) ≤ sampleRect.w ∧ (0:ℤ) ≤ sampleRect.h ∧
     (0:ℚ) < sampleOutsideBall.radius ∧
     distSqToRect sampleOutsideBall.x sampleOutsideBall.y sampleRect ≠ 0 ∧
     distSqToRect sampleOutsideBall.x sampleOutsideBall.y sampleRect <
       sampleOutsideBall.radius * sampleOutsideBall.radius ∧
     ratSqrt (distSqToRect sampleOutsideBall.x sampleOutsideBall.y sampleRect) *
       ratSqrt (distSqToRect sampleOutsideBall.x sampleOutsideBall.y sampleRect) =
       distSqToRect sampleOutsideBall.x sampleOutsideBall.y sampleRect ∧
     0 < ratSqrt (distSqToRect sampleOutsideBall.x sampleOutsideBall.y sampleRect)) ∧
    ((resolveCircleRect ratSqrt sampleOutsideBall sampleRect (72/100)).2 = true ∧
     distSqToRect
        (resolveCircleRect ratSqrt sampleOutsideBall sampleRect (72/100)).1.x
        (resolveCircleRect ratSqrt sampleOutsideBall sampleRect (72/100)).1.y
        sampleRect = sampleOutsideBall.radius * sampleOutsideBall.radius) :=
  ⟨by with_unfolding_all decide,
   circle_rect_outside_resolution ratSqrt sampleOutsideBall sampleRect (72/100)
     (by decide) (by decide) (by decide) (by with_unfolding_all decide)
     (by with_unfolding_all decide) (by with_unfolding_all decide)
     (by with_unfolding_all decide)⟩

end Bouncer
